import Mathlib

/-!
Verification of the term-query construction and serialization mechanism of
the `elasticsearch-dsl` query-builder library, shallowly embedded in Lean.

The embedding follows `src/search/queries/term_query.rs`: the `TermQuery`
structure, its custom `Serialize` implementation (a single-entry `"term"`
map wrapping a single-entry field-name map around the inner parameter bag),
the serde-derived serialization of the inner bag with its
`skip_serializing_if` attributes, and the `ShouldSkip` implementation.

Parts of the repository referenced by that file but not present in the
sources (the `OptionalScalar` value type, the `Boost` newtype, the
`add_boost_and_name!` builder macro, and the boolean compound query) are
modelled from the specification and marked as such in their doc comments.
-/

namespace ElasticsearchDsl

/-- JSON values as produced by the serialization adapter.  Objects keep
their entries as an ordered association list, mirroring the deterministic
entry order the serializer emits; integers and floats are kept as distinct
constructors because the wire format renders them differently
(`123` versus `2.0`). Float payloads are modelled as rationals: no
floating-point arithmetic is ever performed on them, they are carried
through verbatim. -/
inductive Json where
  | jnull : Json
  | jbool : Bool → Json
  | jint : Int → Json
  | jfloat : Rat → Json
  | jstr : String → Json
  | jarr : List Json → Json
  | jobj : List (String × Json) → Json
deriving Repr, BEq

/-- Keys of a JSON object, in emission order; `[]` on non-objects. -/
def Json.objKeys : Json → List String
  | .jobj kvs => kvs.map Prod.fst
  | _ => []

/-- Entries of a JSON object, in emission order; `[]` on non-objects. -/
def Json.objEntries : Json → List (String × Json)
  | .jobj kvs => kvs
  | _ => []

mutual

/-- Renders a JSON value to its textual wire form.  Rendering is a pure
function of the value, so it makes the byte-level determinism of the
serialization adapter statable. -/
def Json.render : Json → String
  | .jnull => "null"
  | .jbool b => if b then "true" else "false"
  | .jint i => toString i
  | .jfloat q => if q.den = 1 then toString q.num ++ ".0" else toString q
  | .jstr s => "\"" ++ s ++ "\""
  | .jarr xs => "[" ++ Json.renderList xs ++ "]"
  | .jobj kvs => "\x7b" ++ Json.renderObj kvs ++ "\x7d"

/-- Renders the comma-separated elements of a JSON array. -/
def Json.renderList : List Json → String
  | [] => ""
  | [x] => Json.render x
  | x :: y :: xs => Json.render x ++ "," ++ Json.renderList (y :: xs)

/-- Renders the comma-separated `"key":value` entries of a JSON object. -/
def Json.renderObj : List (String × Json) → String
  | [] => ""
  | [(k, v)] => "\"" ++ k ++ "\":" ++ Json.render v
  | (k, v) :: e :: kvs =>
      "\"" ++ k ++ "\":" ++ Json.render v ++ "," ++ Json.renderObj (e :: kvs)

end

/-- Modelled from the spec: the optional scalar value type
(`OptionalScalar`, declared outside the provided sources) is a "tagged
union over \x7babsent, integer, float, boolean, string\x7d", with "absent"
distinct from every present state. -/
inductive OptionalScalar where
  | absent : OptionalScalar
  | int : Int → OptionalScalar
  | float : Rat → OptionalScalar
  | bool : Bool → OptionalScalar
  | str : String → OptionalScalar
deriving Repr, DecidableEq

/-- Modelled from the spec: `ShouldSkip` for the optional scalar value —
"an optional scalar value: skip iff absent" (rule 1 of the skip predicate
protocol); the emptiness test "returns true only for absent". -/
def OptionalScalar.should_skip : OptionalScalar → Bool
  | .absent => true
  | _ => false

/-- Modelled from the spec: serialization of a present scalar emits the
primitive itself (`"value": <scalar>` in the wire format); an absent
scalar, which the serializer only reaches when the enclosing query was not
skipped, is rendered as JSON null. -/
def OptionalScalar.serialize : OptionalScalar → Json
  | .absent => Json.jnull
  | .int i => Json.jint i
  | .float q => Json.jfloat q
  | .bool b => Json.jbool b
  | .str s => Json.jstr s

/-- Modelled from the spec: conversion into the optional scalar from the
explicit no-value sentinel or from a present string (`None::<String>` /
`Some(s)`); "conversion from a typed primitive always yields present". -/
def OptionalScalar.ofOptionString : Option String → OptionalScalar
  | none => .absent
  | some s => .str s

/-- Modelled from the spec: the `Boost` relevance-weight type — any
numeric-convertible input, "stored as a floating value".  As with JSON
floats, the payload is carried verbatim, so it is modelled as a rational. -/
abbrev Boost := Rat

/-- The inner parameter bag of a term query (struct `Inner` in the source):
the mandatory `value` plus the two optional conveniences `boost` and
`_name`, each marked `skip_serializing_if = "ShouldSkip::should_skip"`. -/
structure Inner where
  value : OptionalScalar
  boost : Option Boost
  _name : Option String
deriving Repr, DecidableEq

/-- Serde-derived serialization of `Inner`: fields are emitted in
declaration order; `value` is unconditional, while `boost` and `_name` are
each emitted only when their `Option` slot is occupied (the
`skip_serializing_if` attribute with `Option`'s skip check: skip iff its
own value is unset). -/
def Inner.serialize (inner : Inner) : Json :=
  Json.jobj
    ([("value", inner.value.serialize)]
      ++ (match inner.boost with
          | none => []
          | some b => [("boost", Json.jfloat b)])
      ++ (match inner._name with
          | none => []
          | some n => [("_name", Json.jstr n)]))

/-- The term query (struct `TermQuery` in the source): the target field
name and the inner parameter bag. -/
structure TermQuery where
  field : String
  inner : Inner
deriving Repr, DecidableEq

/-- `TermQuery::new(field, value)` from the source: stores the
(string-converted) field verbatim and the (scalar-converted) value, with
both conveniences unset. -/
def TermQuery.new (field : String) (value : OptionalScalar) : TermQuery :=
  { field := field
    inner := { value := value, boost := none, _name := none } }

/-- `Query::term(field, value)` from the source: delegates to
`TermQuery::new`. -/
def Query.term (field : String) (value : OptionalScalar) : TermQuery :=
  TermQuery.new field value

/-- Modelled from the spec: the `boost` builder generated by the
`add_boost_and_name!` macro (macro body not in the provided sources) —
"`boost(self, value) -> Self` sets relevance weight", consuming the
receiver and returning the modified value. -/
def TermQuery.boost (q : TermQuery) (b : Boost) : TermQuery :=
  { q with inner := { q.inner with boost := some b } }

/-- Modelled from the spec: the `name` builder generated by the
`add_boost_and_name!` macro (macro body not in the provided sources) —
"`name(self, value) -> Self` sets an arbitrary caller-supplied label". -/
def TermQuery.name (q : TermQuery) (n : String) : TermQuery :=
  { q with inner := { q.inner with _name := some n } }

/-- `ShouldSkip for TermQuery` from the source: the query is skipped
exactly when its inner mandatory value is skipped. -/
def TermQuery.should_skip (q : TermQuery) : Bool :=
  q.inner.value.should_skip

/-- `Serialize for TermQuery` from the source: a single-entry map
`"term" -> ` (single-entry map `field -> inner bag`).  The intermediate
`HashMap` in the source holds exactly one entry, so its emission order is
the single field-name key. -/
def TermQuery.serialize (q : TermQuery) : Json :=
  Json.jobj [("term", Json.jobj [(q.field, q.inner.serialize)])]

/-- Modelled from the spec: the boolean compound query (not in the
provided sources) holds clause lists (`must`, `should`, `must_not`,
`filter`); clauses here are the term queries the provided sources define. -/
structure BoolQuery where
  must : List TermQuery
  should : List TermQuery
  must_not : List TermQuery
  filterClauses : List TermQuery
deriving Repr, DecidableEq

/-- Modelled from the spec: `Query::bool()` creates a boolean query with
all clause lists empty. -/
def Query.bool : BoolQuery :=
  { must := [], should := [], must_not := [], filterClauses := [] }

/-- Modelled from the spec: the `filter` builder of the boolean query
appends a clause to its filter clause list. -/
def BoolQuery.filter (q : BoolQuery) (c : TermQuery) : BoolQuery :=
  { q with filterClauses := q.filterClauses ++ [c] }

/-- Modelled from the spec: serialization of one clause list of a boolean
query — individually-skippable clauses are removed first, and a list that
is empty after that removal contributes no key at all. -/
def BoolQuery.serializeSection (key : String) (cs : List TermQuery) :
    List (String × Json) :=
  let kept := cs.filter (fun c => !c.should_skip)
  if kept.isEmpty then []
  else [(key, Json.jarr (kept.map TermQuery.serialize))]

/-- Modelled from the spec: serialization of a boolean query — the clause
lists, each filtered per the skip predicate protocol, nested under the
`"bool"` type tag; "a non-empty container with only skippable children
degenerates to an empty wire object" (`\x7b"bool": \x7b\x7d\x7d`). -/
def BoolQuery.serialize (q : BoolQuery) : Json :=
  Json.jobj [("bool", Json.jobj
    (BoolQuery.serializeSection "must" q.must
      ++ BoolQuery.serializeSection "should" q.should
      ++ BoolQuery.serializeSection "must_not" q.must_not
      ++ BoolQuery.serializeSection "filter" q.filterClauses))]

/-- C1: for every field name `f` and every supported primitive (present)
value `v`, the query built by `TermQuery::new(f, v)` with no conveniences
attached serializes to the single-entry map
`\x7b"term": \x7bf: \x7b"value": v\x7d\x7d\x7d`, and the inner bag carries
neither a `"boost"` nor a `"_name"` key. -/
theorem C1_new_serializes_bare (f : String) (v : OptionalScalar)
    (_hv : v ≠ OptionalScalar.absent) :
    (TermQuery.new f v).serialize =
      Json.jobj [("term", Json.jobj [(f, Json.jobj [("value", v.serialize)])])]
      ∧ "boost" ∉ ((TermQuery.new f v).inner.serialize).objKeys
      ∧ "_name" ∉ ((TermQuery.new f v).inner.serialize).objKeys := by
  refine ⟨?_, ?_, ?_⟩ <;>
    simp [TermQuery.new, TermQuery.serialize, Inner.serialize, Json.objKeys]

/-- Witness for C1 at the spec's concrete scenario
`TermQuery::new("test", 123)`. -/
theorem C1_new_serializes_bare_witness :
    (TermQuery.new "test" (OptionalScalar.int 123)).serialize =
      Json.jobj [("term", Json.jobj
        [("test", Json.jobj [("value", (OptionalScalar.int 123).serialize)])])]
      ∧ "boost" ∉
          ((TermQuery.new "test" (OptionalScalar.int 123)).inner.serialize).objKeys
      ∧ "_name" ∉
          ((TermQuery.new "test" (OptionalScalar.int 123)).inner.serialize).objKeys :=
  C1_new_serializes_bare "test" (OptionalScalar.int 123) (by decide)

/-- C2: for every field name `f`, `TermQuery::new(f, None::<String>)` has
`should_skip() == true`, and as the sole filter clause of a boolean query
the clause is omitted while the enclosing tag is retained, serializing to
`\x7b"bool": \x7b\x7d\x7d`. -/
theorem C2_absent_value_skips_and_bool_is_empty (f : String) :
    (TermQuery.new f (OptionalScalar.ofOptionString none)).should_skip = true
    ∧ (Query.bool.filter
        (TermQuery.new f (OptionalScalar.ofOptionString none))).serialize =
      Json.jobj [("bool", Json.jobj [])] := by
  refine ⟨rfl, ?_⟩
  simp [Query.bool, BoolQuery.filter, BoolQuery.serialize,
    BoolQuery.serializeSection, TermQuery.new, TermQuery.should_skip,
    OptionalScalar.ofOptionString, OptionalScalar.should_skip]

/-- C3: attaching `boost(b)` to any term query adds `"boost": b` (as a
float) to its serialized inner bag, attaching `name(n)` adds `"_name": n`,
and the spec's concrete scenario
`TermQuery::new("test", 123).boost(2).name("test")` serializes to
`\x7b"term": \x7b"test": \x7b"value": 123, "boost": 2.0,
"_name": "test"\x7d\x7d\x7d`. -/
theorem C3_boost_and_name_extend_inner_bag (q : TermQuery) (b : Boost)
    (n : String) :
    ("boost", Json.jfloat b) ∈ ((q.boost b).inner.serialize).objEntries
    ∧ ("_name", Json.jstr n) ∈ ((q.name n).inner.serialize).objEntries
    ∧ (((TermQuery.new "test" (OptionalScalar.int 123)).boost 2).name
        "test").serialize =
      Json.jobj [("term", Json.jobj [("test", Json.jobj
        [("value", Json.jint 123), ("boost", Json.jfloat 2),
          ("_name", Json.jstr "test")])])] := by
  refine ⟨?_, ?_, rfl⟩
  · cases h : q.inner._name <;>
      simp [TermQuery.boost, Inner.serialize, Json.objEntries, h]
  · cases h : q.inner.boost <;>
      simp [TermQuery.name, Inner.serialize, Json.objEntries, h]

/-- C4: for every term query `q`, boost value `b` and name value `n`,
`q.boost(b).name(n)` and `q.name(n).boost(b)` are the same query value and
produce identical serialized output. -/
theorem C4_boost_name_commute (q : TermQuery) (b : Boost) (n : String) :
    (q.boost b).name n = (q.name n).boost b
    ∧ ((q.boost b).name n).serialize = ((q.name n).boost b).serialize :=
  ⟨rfl, rfl⟩

/-- C5: serialization is deterministic — two runs of the serialization
adapter on equal term-query inputs, rendered to text, produce
byte-identical output. -/
theorem C5_serialization_deterministic (q1 q2 : TermQuery) (h : q1 = q2) :
    (q1.serialize).render = (q2.serialize).render := by
  rw [h]

/-- Witness for C5 at the concrete query `TermQuery::new("test", 123)`. -/
theorem C5_serialization_deterministic_witness :
    ((TermQuery.new "test" (OptionalScalar.int 123)).serialize).render =
      ((TermQuery.new "test" (OptionalScalar.int 123)).serialize).render :=
  C5_serialization_deterministic (TermQuery.new "test" (OptionalScalar.int 123))
    (TermQuery.new "test" (OptionalScalar.int 123)) rfl

/-- C6: `should_skip` on a term query equals the skip-check of the inner
mandatory value alone, is true exactly when that value is absent, and is
unaffected by attaching `boost(b)` or `name(n)`. -/
theorem C6_should_skip_ignores_conveniences (q : TermQuery) (b : Boost)
    (n : String) :
    (q.boost b).should_skip = q.should_skip
    ∧ (q.name n).should_skip = q.should_skip
    ∧ q.should_skip = q.inner.value.should_skip
    ∧ (q.should_skip = true ↔ q.inner.value = OptionalScalar.absent) := by
  refine ⟨rfl, rfl, rfl, ?_⟩
  cases h : q.inner.value <;>
    simp [TermQuery.should_skip, OptionalScalar.should_skip, h]

/-- C7: construction is total and error-free — `TermQuery::new(f, v)`
returns, for every input, the query holding `f` and `v` with both
conveniences unset; the conversion from the optional-string input yields
an absent value exactly on the no-value sentinel, so passing the sentinel
is legal and produces a query that skips itself rather than erroring. -/
theorem C7_construction_total (f : String) (v : OptionalScalar)
    (o : Option String) :
    TermQuery.new f v =
      { field := f, inner := { value := v, boost := none, _name := none } }
    ∧ ((TermQuery.new f (OptionalScalar.ofOptionString o)).should_skip = true
        ↔ o = none) := by
  refine ⟨rfl, ?_⟩
  cases o <;>
    simp [TermQuery.new, TermQuery.should_skip, OptionalScalar.ofOptionString,
      OptionalScalar.should_skip]

/-- C8: the field name is stored verbatim with no normalization and
appears unchanged as the inner wire key; in particular the empty-string
field name is accepted and serializes verbatim, producing
`\x7b"term": \x7b"": \x7b...\x7d\x7d\x7d`. -/
theorem C8_field_verbatim_empty_accepted (f : String) (v : OptionalScalar) :
    (TermQuery.new f v).field = f
    ∧ (TermQuery.new f v).serialize =
        Json.jobj [("term", Json.jobj [(f, Json.jobj [("value", v.serialize)])])]
    ∧ (TermQuery.new "" v).serialize =
        Json.jobj [("term", Json.jobj [("", Json.jobj [("value", v.serialize)])])] := by
  refine ⟨rfl, ?_, ?_⟩ <;>
    simp [TermQuery.new, TermQuery.serialize, Inner.serialize]

/-- C9: `should_skip` is idempotent and pure — any number of repeated
calls on the unmodified query all return the same boolean result. -/
theorem C9_should_skip_idempotent (q : TermQuery) (k : Nat) :
    (List.range k).map (fun _ => q.should_skip) =
      List.replicate k q.should_skip := by
  rw [List.map_const', List.length_range]

/-- C10: the two construction paths coincide — `Query::term(f, v)` returns
the same term query as `TermQuery::new(f, v)`, so both serialize
identically and have the same `should_skip` result. -/
theorem C10_query_term_eq_new (f : String) (v : OptionalScalar) :
    Query.term f v = TermQuery.new f v
    ∧ (Query.term f v).serialize = (TermQuery.new f v).serialize
    ∧ (Query.term f v).should_skip = (TermQuery.new f v).should_skip :=
  ⟨rfl, rfl, rfl⟩

end ElasticsearchDsl
